import Mathlib

/-!
Verification of the DS1307 real-time-clock driver (src/ds1307.py).

The driver is embedded shallowly:
* the pure BCD codecs `bcd_to_dec` and `dec_to_bcd` become Lean functions
  on `Nat` (Python integers here are always non-negative);
* the fire-and-forget I2C write path (`write_time`, `write_date`,
  `adjust`) is modelled by the trace of single-register writes each call
  dispatches, in dispatch order;
* the read callback `process_data` becomes a pure state transformer
  returning `Option DS1307State`: `none` models a Python exception
  (unpacking a buffer whose length is not 13, or `datetime` rejecting an
  out-of-range field), in which case the session attributes are left
  unchanged;
* CPython's `datetime.datetime` constructor is modelled by `datetimeMk`,
  which validates field ranges exactly as documented (MINYEAR = 1,
  MAXYEAR = 9999, month 1–12, day 1–days-in-month, hour 0–23,
  minute 0–59, second 0–59) and returns `none` where CPython raises
  `ValueError`.
-/

namespace DS1307

/-- Starting address of the DS1307's RAM (class constant `DS1307_RAM_ADDR`). -/
def DS1307_RAM_ADDR : Nat := 0x08

/-- I2C address of the DS1307 (class constant `DS1307_ADDRESS`). -/
def DS1307_ADDRESS : Nat := 0x68

/-- Address of the seconds register. -/
def SEC_REG : Nat := 0x00

/-- Address of the minutes register. -/
def MIN_REG : Nat := 0x01

/-- Address of the hours register. -/
def HOUR_REG : Nat := 0x02

/-- Address of the day-of-week register. -/
def DOW_REG : Nat := 0x03

/-- Address of the day-of-month register. -/
def DOM_REG : Nat := 0x04

/-- Address of the month register. -/
def MONTH_REG : Nat := 0x05

/-- Address of the year register. -/
def YEAR_REG : Nat := 0x06

/-- Embedding of `DS1307.bcd_to_dec` (src/ds1307.py lines 115–125):
`((bcd_val & 0xF0) >> 4) * 10 + (bcd_val & 0x0F)`. -/
def bcd_to_dec (bcd_val : Nat) : Nat :=
  ((bcd_val &&& 0xF0) >>> 4) * 10 + (bcd_val &&& 0x0F)

/-- Embedding of `DS1307.dec_to_bcd` (src/ds1307.py lines 127–138):
`tens, units = divmod(dec, 10); return (tens << 4) + units`. -/
def dec_to_bcd (d : Nat) : Nat :=
  let tens := d / 10
  let units := d % 10
  (tens <<< 4) + units

/-- One single-register I2C write dispatched through
`self.board.i2c_write(addr, data)`. -/
structure I2CWrite where
  addr : Nat
  data : List Nat
deriving DecidableEq, Repr

/-- Embedding of `DS1307.write_time` (src/ds1307.py lines 78–95) as the
trace of I2C writes it dispatches, in dispatch order: seconds, minutes,
hours. -/
def write_time (hours minutes seconds : Nat) : List I2CWrite :=
  [⟨DS1307_ADDRESS, [SEC_REG, dec_to_bcd seconds]⟩,
   ⟨DS1307_ADDRESS, [MIN_REG, dec_to_bcd minutes]⟩,
   ⟨DS1307_ADDRESS, [HOUR_REG, dec_to_bcd hours]⟩]

/-- Embedding of `DS1307.write_date` (src/ds1307.py lines 97–113) as the
trace of I2C writes it dispatches, in dispatch order: day-of-month,
month, year modulo 100. -/
def write_date (day month year : Nat) : List I2CWrite :=
  [⟨DS1307_ADDRESS, [DOM_REG, dec_to_bcd day]⟩,
   ⟨DS1307_ADDRESS, [MONTH_REG, dec_to_bcd month]⟩,
   ⟨DS1307_ADDRESS, [YEAR_REG, dec_to_bcd (year % 100)]⟩]

/-- Gregorian leap-year predicate, as used by CPython's `datetime`. -/
def isLeapYear (y : Nat) : Bool :=
  y % 4 == 0 && (y % 100 != 0 || y % 400 == 0)

/-- Number of days in a month, as used by CPython's `datetime`. -/
def daysInMonth (y m : Nat) : Nat :=
  if m == 2 then (if isLeapYear y then 29 else 28)
  else if m == 4 || m == 6 || m == 9 || m == 11 then 30
  else 31

/-- A naive calendar timestamp: the value a successful
`datetime.datetime(...)` call produces (microsecond is always 0 and
tzinfo always None in this driver, so they are omitted). -/
structure Datetime where
  year : Nat
  month : Nat
  day : Nat
  hour : Nat
  minute : Nat
  second : Nat
deriving DecidableEq, Repr

/-- Model of the CPython `datetime.datetime` constructor: returns the
timestamp when every field is in its documented range, and `none` where
CPython raises `ValueError`. -/
def datetimeMk (year month day hour minute second : Nat) : Option Datetime :=
  if 1 ≤ year ∧ year ≤ 9999 ∧ 1 ≤ month ∧ month ≤ 12 ∧
     1 ≤ day ∧ day ≤ daysInMonth year month ∧
     hour ≤ 23 ∧ minute ≤ 59 ∧ second ≤ 59 then
    some ⟨year, month, day, hour, minute, second⟩
  else none

/-- The session attributes set in `DS1307.__init__` and mutated by
`process_data`: `self.date` (current timestamp) and `self.start_time`
(first observed timestamp), both `None` until a read completes. -/
structure DS1307State where
  date : Option Datetime
  start_time : Option Datetime
deriving DecidableEq, Repr

/-- Embedding of the attribute initialisation in `DS1307.__init__`
(src/ds1307.py lines 57–58): `self.date = None; self.start_time = None`. -/
def init : DS1307State := ⟨none, none⟩

/-- Embedding of `DS1307.get_date` (src/ds1307.py lines 60–67):
returns `self.date`. -/
def get_date (s : DS1307State) : Option Datetime :=
  s.date

/-- Embedding of `DS1307.process_data` (src/ds1307.py lines 140–180).
The Python body destructures `data` into exactly 13 names (5 framing
fields, 7 BCD data bytes, 1 transport timestamp); any other length
raises before any attribute is assigned, modelled by `none`.  On a
13-element buffer it builds a `datetime` (which may itself raise,
modelled by `none`), stores it in `self.date`, and stores it in
`self.start_time` as well when that attribute is still `None`. -/
def process_data (data : List Nat) (s : DS1307State) : Option DS1307State :=
  match data with
  | [_i2c_command, _i2c_port, _num_bytes, _i2c_addr, _i2c_register,
     seconds_bcd, minutes_bcd, hours_bcd, _dow_bcd, dom_bcd,
     month_bcd, year_bcd, _time_stamp] =>
    match datetimeMk (bcd_to_dec year_bcd + 2000) (bcd_to_dec month_bcd)
        (bcd_to_dec dom_bcd) (bcd_to_dec hours_bcd)
        (bcd_to_dec minutes_bcd) (bcd_to_dec seconds_bcd) with
    | some d =>
      some { date := some d,
             start_time := match s.start_time with
                           | none => some d
                           | some t => some t }
    | none => none
  | _ => none

/-- Embedding of `DS1307.adjust` (src/ds1307.py lines 182–197): extract
the six fields from the timestamp and dispatch `write_date` then
`write_time`; the trace is the concatenation of the two traces. -/
def adjust (dt : Datetime) : List I2CWrite :=
  let day := dt.day
  let month := dt.month
  let year := dt.year
  let hours := dt.hour
  let minutes := dt.minute
  let seconds := dt.second
  write_date day month year ++ write_time hours minutes seconds

/-- Claim C1: for every integer v with 0 ≤ v ≤ 99,
`bcd_to_dec (dec_to_bcd v) = v`: decoding the BCD encoding of v
returns v. -/
theorem bcd_roundtrip (v : Nat) (h : v ≤ 99) :
    bcd_to_dec (dec_to_bcd v) = v := by
  revert h
  revert v
  decide

/-- Witness for the C1 theorem at v = 59. -/
theorem bcd_roundtrip_witness :
    59 ≤ 99 ∧ bcd_to_dec (dec_to_bcd 59) = 59 :=
  ⟨by decide, bcd_roundtrip 59 (by decide)⟩

/-- Claim C9: the fixed test vectors for the BCD codec hold:
`dec_to_bcd 0 = 0x00`, `dec_to_bcd 59 = 0x59`, `dec_to_bcd 23 = 0x23`,
`bcd_to_dec 0x59 = 59`, `bcd_to_dec 0x00 = 0`. -/
theorem bcd_test_vectors :
    dec_to_bcd 0 = 0x00 ∧ dec_to_bcd 59 = 0x59 ∧ dec_to_bcd 23 = 0x23 ∧
    bcd_to_dec 0x59 = 59 ∧ bcd_to_dec 0x00 = 0 := by
  decide

set_option maxRecDepth 4000 in
/-- Claim C8: `bcd_to_dec` is total on all byte inputs and equals
high-nibble × 10 + low-nibble; for a malformed byte whose nibbles exceed
9 it can return a value above 99 rather than failing. -/
theorem bcd_to_dec_total_on_bytes :
    (∀ b, b ≤ 255 →
      bcd_to_dec b = ((b >>> 4) &&& 0xF) * 10 + (b &&& 0xF)) ∧
    (∃ b, b ≤ 255 ∧ 99 < bcd_to_dec b) := by
  refine ⟨by decide, ⟨0xAA, by decide, by decide⟩⟩

/-- Claim C2: on a read response whose 7 data bytes are
0x30, 0x15, 0x10, 0x03, 0x04, 0x07, 0x23 (seconds, minutes, hours,
day-of-week, day-of-month, month, year, all BCD), `process_data`
succeeds for any framing fields, transport timestamp and prior session
state, and stores 2023-07-04 10:15:30 as the current timestamp, with
year computed as the decoded two-digit year plus 2000. -/
theorem process_data_decodes_example
    (c p n a r ts : Nat) (s : DS1307State) :
    ∃ s2, process_data [c, p, n, a, r,
        0x30, 0x15, 0x10, 0x03, 0x04, 0x07, 0x23, ts] s = some s2 ∧
      s2.date = some ⟨2023, 7, 4, 10, 15, 30⟩ ∧
      2023 = bcd_to_dec 0x23 + 2000 := by
  refine ⟨_, rfl, rfl, by decide⟩

/-- Claim C3: `write_date 4 7 2023` followed by `write_time 10 15 30`
dispatches exactly six single-register I2C writes to device 0x68 with
register/value byte pairs, in dispatch order, (0x04, 0x04),
(0x05, 0x07), (0x06, 0x23), (0x00, 0x30), (0x01, 0x15), (0x02, 0x10). -/
theorem write_date_write_time_trace :
    write_date 4 7 2023 ++ write_time 10 15 30 =
      [⟨0x68, [0x04, 0x04]⟩, ⟨0x68, [0x05, 0x07]⟩, ⟨0x68, [0x06, 0x23]⟩,
       ⟨0x68, [0x00, 0x30]⟩, ⟨0x68, [0x01, 0x15]⟩, ⟨0x68, [0x02, 0x10]⟩] := by
  decide

/-- Claim C4: for every year value y, the third write dispatched by
`write_date` targets the year register 0x06 with value
`dec_to_bcd (y % 100)`; in particular with year = 2150 the byte written
to register 0x06 is 0x50. -/
theorem write_date_year_mod100 (d m y : Nat) :
    (write_date d m y)[2]? =
      some ⟨DS1307_ADDRESS, [YEAR_REG, dec_to_bcd (y % 100)]⟩ ∧
    (write_date d m 2150)[2]? = some ⟨0x68, [0x06, 0x50]⟩ :=
  ⟨rfl, rfl⟩

/-- Claim C5: a successful `process_data` call on a session whose
`start_time` is still unset sets both `date` and `start_time` to the
same decoded value; a successful call on a session whose `start_time`
is already set updates only `date` and leaves `start_time` unchanged. -/
theorem start_time_write_once (data : List Nat) (s s2 : DS1307State)
    (h : process_data data s = some s2) :
    (s.start_time = none →
        s2.start_time = s2.date ∧ s2.start_time.isSome) ∧
    (s.start_time.isSome → s2.start_time = s.start_time) := by
  unfold process_data at h
  split at h
  · split at h
    · cases h
      constructor
      · intro hs
        simp [hs]
      · intro hs
        rcases hst : s.start_time with _ | t
        · rw [hst] at hs
          simp at hs
        · simp [hst]
    · exact Option.noConfusion h
  · exact Option.noConfusion h

/-- Witness for the C5 theorem: a first read on a fresh session sets
both fields to the decoded timestamp. -/
theorem start_time_write_once_witness :
    ((DS1307State.mk none none).start_time = none →
        (DS1307State.mk (some ⟨2023, 7, 4, 10, 15, 30⟩)
            (some ⟨2023, 7, 4, 10, 15, 30⟩)).start_time =
          (DS1307State.mk (some ⟨2023, 7, 4, 10, 15, 30⟩)
            (some ⟨2023, 7, 4, 10, 15, 30⟩)).date ∧
        (DS1307State.mk (some ⟨2023, 7, 4, 10, 15, 30⟩)
            (some ⟨2023, 7, 4, 10, 15, 30⟩)).start_time.isSome) ∧
    ((DS1307State.mk none none).start_time.isSome →
        (DS1307State.mk (some ⟨2023, 7, 4, 10, 15, 30⟩)
            (some ⟨2023, 7, 4, 10, 15, 30⟩)).start_time =
          (DS1307State.mk none none).start_time) :=
  start_time_write_once
    [10, 0, 7, 0x68, 0, 0x30, 0x15, 0x10, 0x03, 0x04, 0x07, 0x23, 0]
    ⟨none, none⟩
    ⟨some ⟨2023, 7, 4, 10, 15, 30⟩, some ⟨2023, 7, 4, 10, 15, 30⟩⟩
    (by decide)

/-- Claim C6: on a freshly created session, before any read callback has
completed, `get_date` returns the unset value `none`. -/
theorem get_date_unset_initially : get_date init = none :=
  rfl

/-- Claim C7: for every timestamp dt, `adjust dt` dispatches exactly the
same sequence of I2C writes as `write_date dt.day dt.month dt.year`
followed by `write_time dt.hour dt.minute dt.second`. -/
theorem adjust_refines_write_date_write_time (dt : Datetime) :
    adjust dt =
      write_date dt.day dt.month dt.year ++
        write_time dt.hour dt.minute dt.second :=
  rfl

/-- Claim C10: `process_data` requires a buffer of exactly 13 elements;
for a buffer of any other length the destructuring fails before any
assignment, modelled by the call returning `none` so the session state
is left unchanged. -/
theorem process_data_length_guard (data : List Nat) (s : DS1307State)
    (h : data.length ≠ 13) :
    process_data data s = none := by
  unfold process_data
  split
  · simp at h
  · rfl

/-- Witness for the C10 theorem at the empty buffer. -/
theorem process_data_length_guard_witness :
    process_data [] ⟨none, none⟩ = none :=
  process_data_length_guard [] ⟨none, none⟩ (by decide)

end DS1307
